import Mathlib

/-!
Shallow embedding of `src/fml/preprocessing.py`: the column type-detection
heuristic `detect_types_dataframe` and the `SimplePreprocessor` fit/transform
logic, together with theorems settling the specification claims.
-/

namespace Dabl

/-- Per-column physical storage kind, derived in the source from the pandas
dtype kind character: `f` float, `i` integer, `O` object (string), `M` date,
anything else `other`. -/
inductive Kind : Type
  | kfloat
  | kint
  | kobj
  | kdate
  | kother
deriving DecidableEq, Repr

/-- A column of a dataframe: its storage kind and its entries in row order.
`none` is a missing value (NaN/null); present values are carried as strings,
which is all detection inspects (distinctness for every kind, and the numeric
regex for object columns). -/
structure Column : Type where
  kind : Kind
  values : List (Option String)
deriving DecidableEq, Repr

/-- The non-null entries of a column, in order. -/
def nonNull (c : Column) : List String := c.values.filterMap id

/-- Source `Series.nunique`: the number of distinct non-null values of a column. -/
def nunique (c : Column) : Nat := (nonNull c).dedup.length

/-- Full match of the numeric-literal pattern from line 39 of the source,
`[+-]?[0-9]*\.?[0-9]*` anchored on both sides: an optional sign, digits,
an optional decimal point, digits.  Matches the empty string too. -/
def matchesFloatPattern (s : String) : Bool :=
  let cs := s.data
  let cs1 :=
    match cs with
    | c :: rest => if c = '+' || c = '-' then rest else cs
    | [] => []
  match cs1.dropWhile Char.isDigit with
  | [] => true
  | c :: rest => c = '.' && rest.all Char.isDigit

/-- Source `kinds == "f"`. -/
def floats (c : Column) : Bool := decide (c.kind = Kind.kfloat)

/-- Source `kinds == "i"`. -/
def integers (c : Column) : Bool := decide (c.kind = Kind.kint)

/-- Source `kinds == "O"`. -/
def objects (c : Column) : Bool := decide (c.kind = Kind.kobj)

/-- Source `kinds == "M"`. -/
def dates (c : Column) : Bool := decide (c.kind = Kind.kdate)

/-- Source `float_frequencies`: for an object column, the mean over non-null entries
of the boolean "matches the numeric pattern" (pandas `.mean()` skips the NaN
results that null entries produce, and yields NaN on an all-null or empty
column, modelled as `none`).  For non-object columns the series has no entry
(modelled `none`): the source computes it only over `X.loc[:, objects]`, and
pandas alignment then treats the missing positions as NaN, which every later
boolean operation and the final `fillna(False)` turn into `False`. -/
def float_frequency (c : Column) : Option ℚ :=
  if objects c then
    let nn := nonNull c
    if nn.length = 0 then none
    else some ((nn.countP matchesFloatPattern : ℚ) / (nn.length : ℚ))
  else none

/-- Source `clean_float_string = float_frequencies == 1.0`. -/
def clean_float_string (c : Column) : Bool :=
  decide (float_frequency c = some 1)

/-- Source `dirty_float_string = (float_frequencies > .9) & (~clean_float_string)`. -/
def dirty_float_string (c : Column) : Bool :=
  (match float_frequency c with
   | some q => decide ((9 : ℚ) / 10 < q)
   | none => false) && !(clean_float_string c)

/-- Source `few_entries = n_values < max(42, n_samples / 10)` (Python `/` is
real division). -/
def few_entries (nsamples : Nat) (c : Column) : Bool :=
  decide ((nunique c : ℚ) < max 42 ((nsamples : ℚ) / 10))

/-- Source `cont_integers = integers.copy()`. -/
def cont_integers (c : Column) : Bool := integers c

/-- Source `cat_integers = few_entries & integers`. -/
def cat_integers (nsamples : Nat) (c : Column) : Bool :=
  few_entries nsamples c && integers c

/-- Source `cat_string = few_entries & objects`. -/
def cat_string (nsamples : Nat) (c : Column) : Bool :=
  few_entries nsamples c && objects c

/-- Source `continuous = floats | cont_integers | clean_float_string`. -/
def continuous (c : Column) : Bool :=
  floats c || cont_integers c || clean_float_string c

/-- Source `categorical = cat_integers | cat_string`. -/
def categorical (nsamples : Nat) (c : Column) : Bool :=
  cat_integers nsamples c || cat_string nsamples c

/-- Source `res['useless'] = res.sum(axis=1) == 0`: the row sum of the four boolean
flags (after `fillna(False)`) is zero. -/
def useless (nsamples : Nat) (c : Column) : Bool :=
  decide ((continuous c).toNat + (categorical nsamples c).toNat
    + (dates c).toNat + (dirty_float_string c).toNat = 0)

/-- One row of the returned `TypeReport`: the five boolean flags of a column. -/
structure Flags : Type where
  continuous : Bool
  categorical : Bool
  date : Bool
  dirty_float_string : Bool
  useless : Bool
deriving DecidableEq, Repr

/-- The five flags detection assigns to one column of a dataframe with
`nsamples` rows. -/
def detectColumn (nsamples : Nat) (c : Column) : Flags :=
  { continuous := continuous c
    categorical := categorical nsamples c
    date := dates c
    dirty_float_string := dirty_float_string c
    useless := useless nsamples c }

/-- A pandas dataframe: named columns, positionally aligned; `nrows` is
`X.shape[0]` (every column stores exactly `nrows` entries). -/
structure DataFrame : Type where
  nrows : Nat
  cols : List (String × Column)
deriving DecidableEq, Repr

/-- The `TypeReport` `res` built on lines 51-56: one row of flags per column. -/
def detectTypes (df : DataFrame) : List (String × Flags) :=
  df.cols.map (fun nc => (nc.1, detectColumn df.nrows nc.2))

/-- Number of columns of a given storage kind, used by the diagnostics. -/
def countKind (df : DataFrame) (k : Kind) : Nat :=
  df.cols.countP (fun nc => decide (nc.2.kind = k))

/-- The verbosity-gated diagnostic lines printed on lines 58-79: a kind/type
summary at `verbose >= 1` and dirty/dropped warnings at `verbose >= 2`. -/
def diagnostics (df : DataFrame) (res : List (String × Flags)) (verbose : Int) :
    List String :=
  (if verbose ≥ 1 then
    ["Detected feature types:",
     toString (countKind df Kind.kfloat) ++ " float, " ++
       toString (countKind df Kind.kint) ++ " int, " ++
       toString (countKind df Kind.kobj) ++ " object, " ++
       toString (countKind df Kind.kdate) ++ " date, " ++
       toString (countKind df Kind.kother) ++ " other",
     "Interpreted as:",
     toString (res.countP (fun nf => nf.2.continuous)) ++ " continuous, " ++
       toString (res.countP (fun nf => nf.2.categorical)) ++ " categorical, " ++
       toString (res.countP (fun nf => nf.2.date)) ++ " date, " ++
       toString (res.countP (fun nf => nf.2.dirty_float_string)) ++
       " dirty float, " ++
       toString (res.countP (fun nf => nf.2.useless)) ++ " dropped"]
   else []) ++
  (if verbose ≥ 2 then
    (if res.any (fun nf => nf.2.dirty_float_string) then
      ["WARN Found dirty floats encoded as strings: " ++
        toString ((res.filter (fun nf => nf.2.dirty_float_string)).map
          Prod.fst)]
     else []) ++
    (if res.any (fun nf => nf.2.useless) then
      ["WARN dropped columns (too many unique values): " ++
        toString ((res.filter (fun nf => nf.2.useless)).map Prod.fst)]
     else [])
   else [])

/-- Source `detect_types_dataframe(X, verbose)`: returns the `TypeReport`; the
diagnostic text that would be printed is carried as the second component (the
source prints it to stdout and returns only `res`). -/
def detect_types_dataframe (df : DataFrame) (verbose : Int) :
    List (String × Flags) × List String :=
  let res := detectTypes df
  (res, diagnostics df res verbose)

/-- A step of the continuous-column sub-pipeline built in
`SimplePreprocessor.fit`: the `astype(float)` function transformer, the
standard scaler, and the median `SimpleImputer`. -/
inductive Step : Type
  | castFloat
  | standardScaler
  | medianImpute
deriving DecidableEq, Repr

/-- A sub-pipeline attached to a column group: `pipe_continuous` (with its
step list) or `pipe_categorical` (the one-hot encoder). -/
inductive Pipe : Type
  | continuousPipe (steps : List Step)
  | categoricalPipe
deriving DecidableEq, Repr

/-- Source `X.loc[:, types['continuous']].isnull().values.any()`: some column flagged
continuous contains a missing value. -/
def hasMissingContinuous (df : DataFrame) : Bool :=
  df.cols.any (fun nc =>
    (detectColumn df.nrows nc.2).continuous && nc.2.values.any Option.isNone)

/-- Source `steps_continuous` of `fit` (lines 131-136): cast to float then scale,
with a median imputer inserted at position 0 when any continuous column has a
missing value. -/
def steps_continuous (df : DataFrame) : List Step :=
  let base := [Step.castFloat, Step.standardScaler]
  if hasMissingContinuous df then base.insertIdx 0 Step.medianImpute else base

/-- The fitted column transformer `self.ct_`: the column groups with their
sub-pipelines, and the `sparse_threshold` set on line 146.  The numeric kernels
of the scikit-learn transformers are outside the embedding; `transform` models
the column selection and grouping they are applied to. -/
structure ColumnTransformer : Type where
  transformers : List (List String × Pipe)
  sparse_threshold : ℚ
deriving DecidableEq, Repr

/-- Modelled from the spec and the collaborator's documented contract (the
stacking code lives in the external pipeline library, not under src): the
combined output is stacked as a sparse matrix iff some block is sparse and the
overall density is strictly below the configured `sparse_threshold`; otherwise
it is dense.  `fit` configures the threshold to `0.1` (line 146). -/
def output_is_sparse (anySparse : Bool) (density threshold : ℚ) : Bool :=
  anySparse && decide (density < threshold)

/-- Applying the fitted transformer to a dataframe: each column group selects
its columns and hands them to its sub-pipeline; the blocks are concatenated. -/
def ColumnTransformer.transform (ct : ColumnTransformer) (df : DataFrame) :
    List (Pipe × List (String × Column)) :=
  ct.transformers.map (fun tp => (tp.2, df.cols.filter (fun nc => tp.1.contains nc.1)))

/-- The error of `raise ValueError("No feature columns found")` (line 144). -/
inductive FitError : Type
  | noFeatureColumnsFound
deriving DecidableEq, Repr

/-- The `NotFittedError` that `check_is_fitted(self, ['ct_'])` raises when
`transform` runs before a successful `fit` (line 173). -/
inductive TransformError : Type
  | notFitted
deriving DecidableEq, Repr

/-- The `SimplePreprocessor` instance state: `verbose` is set by `__init__`;
the underscore-suffixed attributes exist (`some`) only once `fit` has set
them. -/
structure SimplePreprocessor : Type where
  verbose : Int
  columns_ : Option (List String)
  ct_ : Option ColumnTransformer
  input_shape_ : Option (Nat × Nat)
  types_ : Option (List (String × Flags))
deriving DecidableEq, Repr

/-- Source `SimplePreprocessor(verbose)`: a freshly constructed instance, on which no
fitted attribute exists yet. -/
def SimplePreprocessor.init (verbose : Int) : SimplePreprocessor :=
  { verbose := verbose, columns_ := none, ct_ := none,
    input_shape_ := none, types_ := none }

/-- The `column_types` list assembled on lines 138-142: the continuous group
with its sub-pipeline when some column is flagged continuous, then the
categorical group with the one-hot encoder when some column is flagged
categorical. -/
def fit_column_types (df : DataFrame) : List (List String × Pipe) :=
  let types := detectTypes df
  let contCols := (types.filter (fun nf => nf.2.continuous)).map Prod.fst
  let catCols := (types.filter (fun nf => nf.2.categorical)).map Prod.fst
  (if contCols.isEmpty then []
   else [(contCols, Pipe.continuousPipe (steps_continuous df))]) ++
  (if catCols.isEmpty then [] else [(catCols, Pipe.categoricalPipe)])

/-- Source `SimplePreprocessor.fit(X)` on a dataframe (lines 118-153): detect types,
build the continuous and categorical sub-pipelines, keep each group only if
some column carries its flag, fail when neither group is kept, otherwise
record the fitted state and return the updated instance.  The `ValueError` is
raised before any fitted attribute is assigned. -/
def SimplePreprocessor.fit (p : SimplePreprocessor) (df : DataFrame) :
    Except FitError SimplePreprocessor :=
  if (fit_column_types df).isEmpty then
    Except.error FitError.noFeatureColumnsFound
  else
    Except.ok
      { p with
        columns_ := some (df.cols.map Prod.fst)
        ct_ := some { transformers := fit_column_types df, sparse_threshold := 1 / 10 }
        input_shape_ := some (df.nrows, df.cols.length)
        types_ := some (detectTypes df) }

/-- Source `SimplePreprocessor.transform(X)` (lines 158-174): `check_is_fitted`
fails with `NotFittedError` when the `ct_` attribute does not exist, otherwise
the fitted column transformer is applied. -/
def SimplePreprocessor.transform (p : SimplePreprocessor) (df : DataFrame) :
    Except TransformError (List (Pipe × List (String × Column))) :=
  match p.ct_ with
  | none => Except.error TransformError.notFitted
  | some ct => Except.ok (ct.transform df)

/-- A two-row single-float-column dataframe on which `fit` succeeds, and the
transformer state that `fit` computes for it; used to witness the fitted-state
claims. -/
def dfFloat : DataFrame := ⟨2, [("a", ⟨Kind.kfloat, [some "1.0", some "2.5"]⟩)]⟩

/-- The column transformer `fit` builds for `dfFloat`: one continuous group,
no missing values, threshold `0.1`. -/
def ctFloat : ColumnTransformer :=
  { transformers := [(["a"], Pipe.continuousPipe [Step.castFloat, Step.standardScaler])]
    sparse_threshold := 1 / 10 }

/-- The fitted preprocessor state `fit` returns on `dfFloat`. -/
def fittedFloat : SimplePreprocessor :=
  { verbose := 0
    columns_ := some ["a"]
    ct_ := some ctFloat
    input_shape_ := some (2, 1)
    types_ := some (detectTypes dfFloat) }

/-! ## Helper lemmas -/

lemma useless_eq (n : Nat) (c : Column) :
    useless n c =
      (!continuous c && !categorical n c && !dates c && !dirty_float_string c) := by
  unfold useless
  cases hc : continuous c <;> cases hk : categorical n c <;>
    cases hd : dates c <;> cases hs : dirty_float_string c <;> rfl

lemma detectColumn_useless_iff (n : Nat) (c : Column) :
    (detectColumn n c).useless = true ↔
      ((detectColumn n c).continuous = false ∧ (detectColumn n c).categorical = false ∧
       (detectColumn n c).date = false ∧ (detectColumn n c).dirty_float_string = false) := by
  simp [detectColumn, useless_eq, Bool.and_eq_true, Bool.not_eq_true', and_assoc]

/-- The cardinality test restated over naturals (the kernel cannot evaluate
rational division, so concrete instances are computed through this form). -/
lemma few_entries_iff (n : Nat) (c : Column) :
    few_entries n c = decide (nunique c < 42 ∨ 10 * nunique c < n) := by
  unfold few_entries
  rw [decide_eq_decide, lt_max_iff]
  apply or_congr
  · constructor <;> intro h <;> exact_mod_cast h
  · rw [lt_div_iff₀ (by norm_num : (0 : ℚ) < 10)]
    constructor <;> intro h
    · have h10 : nunique c * 10 < n := by exact_mod_cast h
      omega
    · have h10 : nunique c * 10 < n := by omega
      exact_mod_cast h10

lemma lookup_detectTypes (n : Nat) (l : List (String × Column)) (key : String) :
    (l.map (fun nc => (nc.1, detectColumn n nc.2))).lookup key =
      (l.lookup key).map (detectColumn n) := by
  induction l with
  | nil => rfl
  | cons hd tl ih =>
    cases h : key == hd.1 <;> simp [List.lookup, h, ih]

/-! ## Claims -/

/-- C1.  For a string (object-dtype) column, with `f` the fraction of the
non-null values that fully match `[+-]?[0-9]*\.?[0-9]*` (anchored): if `f` is
exactly `1` the detected flags have `continuous = true` and
`dirty_float_string = false`; if `9/10 < f < 1` they have
`dirty_float_string = true` and `continuous = false`. -/
theorem claim_C1_string_float_frequency (n : Nat) (c : Column)
    (hk : c.kind = Kind.kobj) (hnz : (nonNull c).length ≠ 0) (f : ℚ)
    (hf : f = ((nonNull c).countP matchesFloatPattern : ℚ) / ((nonNull c).length : ℚ)) :
    (f = 1 →
      (detectColumn n c).continuous = true ∧
      (detectColumn n c).dirty_float_string = false) ∧
    ((9 : ℚ) / 10 < f → f < 1 →
      (detectColumn n c).dirty_float_string = true ∧
      (detectColumn n c).continuous = false) := by
  have hobj : objects c = true := by simp [objects, hk]
  have hfl : floats c = false := by simp [floats, hk]
  have hint : integers c = false := by simp [integers, hk]
  have hff : float_frequency c = some f := by
    simp [float_frequency, hobj, hnz, hf]
  constructor
  · intro h1
    subst h1
    have hclean : clean_float_string c = true := by
      simp [clean_float_string, hff]
    refine ⟨?_, ?_⟩
    · simp [detectColumn, continuous, hclean]
    · simp [detectColumn, dirty_float_string, hclean]
  · intro h9 h1
    have hne : f ≠ 1 := ne_of_lt h1
    have hclean : clean_float_string c = false := by
      simp [clean_float_string, hff, hne]
    refine ⟨?_, ?_⟩
    · simp [detectColumn, dirty_float_string, hff, hclean, h9]
    · simp [detectColumn, continuous, hfl, cont_integers, hint, hclean]

/-- C1 witness: a two-row string column whose values all match the pattern is
flagged continuous and not dirty. -/
theorem claim_C1_witness :
    (detectColumn 2 ⟨Kind.kobj, [some "1.5", some "2"]⟩).continuous = true ∧
    (detectColumn 2 ⟨Kind.kobj, [some "1.5", some "2"]⟩).dirty_float_string = false := by
  have hc : (nonNull ⟨Kind.kobj, [some "1.5", some "2"]⟩).countP matchesFloatPattern = 2 := by
    decide
  have hl : (nonNull ⟨Kind.kobj, [some "1.5", some "2"]⟩).length = 2 := by decide
  refine (claim_C1_string_float_frequency 2 ⟨Kind.kobj, [some "1.5", some "2"]⟩ rfl
    (by decide) 1 ?_).1 rfl
  rw [hc, hl]
  norm_num

/-- C2.  An integer-dtype column in a dataframe with `n` rows is always
flagged continuous, and is flagged categorical exactly when its distinct-value
count is strictly below `max 42 (n / 10)`. -/
theorem claim_C2_integer_flags (n : Nat) (c : Column) (hk : c.kind = Kind.kint) :
    (detectColumn n c).continuous = true ∧
    ((detectColumn n c).categorical = true ↔
      (nunique c : ℚ) < max 42 ((n : ℚ) / 10)) := by
  have hint : integers c = true := by simp [integers, hk]
  have hobj : objects c = false := by simp [objects, hk]
  constructor
  · simp [detectColumn, continuous, cont_integers, hint]
  · simp [detectColumn, categorical, cat_integers, cat_string, hint, hobj,
      few_entries]

/-- C2 witness: a three-row integer column with three distinct values is both
continuous and categorical (3 < max 42 (3/10)). -/
theorem claim_C2_witness :
    (detectColumn 3 ⟨Kind.kint, [some "1", some "2", some "3"]⟩).continuous = true ∧
    ((detectColumn 3 ⟨Kind.kint, [some "1", some "2", some "3"]⟩).categorical = true ↔
      (nunique ⟨Kind.kint, [some "1", some "2", some "3"]⟩ : ℚ) <
        max 42 ((3 : ℚ) / 10)) :=
  claim_C2_integer_flags 3 ⟨Kind.kint, [some "1", some "2", some "3"]⟩ rfl

/-- C3.  In the report returned for any dataframe, a column's `useless` flag
is true exactly when its `continuous`, `categorical`, `date` and
`dirty_float_string` flags are all false (missing frequency values having
already been treated as false). -/
theorem claim_C3_useless_iff (df : DataFrame) (name : String) (fl : Flags)
    (h : (name, fl) ∈ detectTypes df) :
    (fl.useless = true ↔
      (fl.continuous = false ∧ fl.categorical = false ∧ fl.date = false ∧
       fl.dirty_float_string = false)) := by
  simp only [detectTypes, List.mem_map] at h
  obtain ⟨nc, hmem, heq⟩ := h
  have hfl : fl = detectColumn df.nrows nc.2 := by
    cases heq
    rfl
  rw [hfl]
  exact detectColumn_useless_iff df.nrows nc.2

/-- C3 witness: the single date column of a concrete dataframe, whose four
other flags are false, is reported useless... it is reported not useless iff
one flag holds; here `date = true`, so `useless = false`. -/
theorem claim_C3_witness :
    ((detectColumn 1 ⟨Kind.kother, [some "z"]⟩).useless = true ↔
      ((detectColumn 1 ⟨Kind.kother, [some "z"]⟩).continuous = false ∧
       (detectColumn 1 ⟨Kind.kother, [some "z"]⟩).categorical = false ∧
       (detectColumn 1 ⟨Kind.kother, [some "z"]⟩).date = false ∧
       (detectColumn 1 ⟨Kind.kother, [some "z"]⟩).dirty_float_string = false)) :=
  claim_C3_useless_iff ⟨1, [("z", ⟨Kind.kother, [some "z"]⟩)]⟩ "z"
    (detectColumn 1 ⟨Kind.kother, [some "z"]⟩) (by simp [detectTypes])

/-- C8.  A column's detected flags depend only on that column's own values
and kind and on the dataframe's row count: two dataframes with the same row
count that store the same column under a name receive the same flags for it,
whatever their other columns are. -/
theorem claim_C8_column_locality (df1 df2 : DataFrame) (hn : df1.nrows = df2.nrows)
    (name : String) (hc : df1.cols.lookup name = df2.cols.lookup name) :
    (detectTypes df1).lookup name = (detectTypes df2).lookup name := by
  simp only [detectTypes]
  rw [lookup_detectTypes, lookup_detectTypes, hn, hc]

/-- C8 witness: the float column `a` gets the same flags in two dataframes
that differ in every other column. -/
theorem claim_C8_witness :
    (detectTypes ⟨2, [("a", ⟨Kind.kfloat, [some "1.0", none]⟩),
                      ("b", ⟨Kind.kint, [some "1", some "2"]⟩)]⟩).lookup "a" =
    (detectTypes ⟨2, [("c", ⟨Kind.kdate, [some "d", none]⟩),
                      ("a", ⟨Kind.kfloat, [some "1.0", none]⟩)]⟩).lookup "a" :=
  claim_C8_column_locality _ _ rfl "a" rfl

/-- C9.  The verbosity argument of `detect_types_dataframe` only gates the
diagnostic text: the returned `TypeReport` is the same at any two verbosity
levels, and equals the pure detection function of the input. -/
theorem claim_C9_verbose_invariance (df : DataFrame) (v1 v2 : Int) :
    (detect_types_dataframe df v1).1 = (detect_types_dataframe df v2).1 ∧
    (detect_types_dataframe df v1).1 = detectTypes df :=
  ⟨rfl, rfl⟩

/-- C10.  A string column whose distinct-value count is below
`max 42 (n / 10)` is flagged categorical whatever its numeric-match frequency;
in particular it is never useless, a fully numeric one is also continuous,
and a dirty one is still categorical. -/
theorem claim_C10_low_cardinality_string (n : Nat) (c : Column)
    (hk : c.kind = Kind.kobj) (hf : few_entries n c = true) :
    (detectColumn n c).categorical = true ∧
    (detectColumn n c).useless = false ∧
    (float_frequency c = some 1 → (detectColumn n c).continuous = true) ∧
    ((detectColumn n c).dirty_float_string = true →
      (detectColumn n c).categorical = true) := by
  have hobj : objects c = true := by simp [objects, hk]
  have hcat : (detectColumn n c).categorical = true := by
    simp [detectColumn, categorical, cat_string, hf, hobj]
  refine ⟨hcat, ?_, ?_, fun _ => hcat⟩
  · cases hu : (detectColumn n c).useless with
    | false => rfl
    | true =>
      have hall := (detectColumn_useless_iff n c).mp hu
      rw [hall.2.1] at hcat
      exact absurd hcat (by decide)
  · intro hfreq
    have hclean : clean_float_string c = true := by
      simp [clean_float_string, hfreq]
    simp [detectColumn, continuous, hclean]

/-- C10 witness: a one-row string column with one distinct numeric value is
categorical, not useless, and continuous when fully numeric. -/
theorem claim_C10_witness :
    (detectColumn 1 ⟨Kind.kobj, [some "1"]⟩).categorical = true ∧
    (detectColumn 1 ⟨Kind.kobj, [some "1"]⟩).useless = false ∧
    (float_frequency ⟨Kind.kobj, [some "1"]⟩ = some 1 →
      (detectColumn 1 ⟨Kind.kobj, [some "1"]⟩).continuous = true) ∧
    ((detectColumn 1 ⟨Kind.kobj, [some "1"]⟩).dirty_float_string = true →
      (detectColumn 1 ⟨Kind.kobj, [some "1"]⟩).categorical = true) :=
  claim_C10_low_cardinality_string 1 ⟨Kind.kobj, [some "1"]⟩ rfl
    (by rw [few_entries_iff]; decide)

/-- C5.  `fit` fails with the no-feature-columns error exactly when type
detection marks no column continuous and no column categorical. -/
theorem claim_C5_no_usable_columns (p : SimplePreprocessor) (df : DataFrame) :
    (p.fit df = Except.error FitError.noFeatureColumnsFound ↔
      ((∀ nf ∈ detectTypes df, nf.2.continuous = false) ∧
       (∀ nf ∈ detectTypes df, nf.2.categorical = false))) := by
  have hnil : fit_column_types df = [] ↔
      (((detectTypes df).filter (fun nf => nf.2.continuous)) = [] ∧
       ((detectTypes df).filter (fun nf => nf.2.categorical)) = []) := by
    simp only [fit_column_types]
    rcases hc : (detectTypes df).filter (fun nf => nf.2.continuous) with _ | ⟨a, l⟩ <;>
      rcases hk : (detectTypes df).filter (fun nf => nf.2.categorical) with _ | ⟨b, m⟩ <;>
        simp
  have hmain : (p.fit df = Except.error FitError.noFeatureColumnsFound) ↔
      (fit_column_types df).isEmpty = true := by
    simp only [SimplePreprocessor.fit]
    cases h : (fit_column_types df).isEmpty <;> simp [h]
  rw [hmain, List.isEmpty_iff, hnil]
  simp [List.filter_eq_nil_iff]

/-- C5 witness: fitting a dataframe holding only a date column raises the
no-feature-columns error. -/
theorem claim_C5_witness :
    (SimplePreprocessor.init 0).fit ⟨1, [("d", ⟨Kind.kdate, [some "t"]⟩)]⟩ =
      Except.error FitError.noFeatureColumnsFound := by
  refine (claim_C5_no_usable_columns _ _).mpr ⟨?_, ?_⟩ <;>
  · intro nf hnf
    simp only [detectTypes, List.map_cons, List.map_nil, List.mem_singleton] at hnf
    subst hnf
    simp [detectColumn, continuous, categorical, cat_integers, cat_string,
      floats, integers, objects, cont_integers, clean_float_string,
      float_frequency]

lemma fit_dfFloat :
    (SimplePreprocessor.init 0).fit dfFloat = Except.ok fittedFloat := by
  simp [SimplePreprocessor.fit, SimplePreprocessor.init, fittedFloat, ctFloat,
    dfFloat, fit_column_types, detectTypes, steps_continuous,
    hasMissingContinuous, detectColumn, continuous, categorical, cat_integers,
    cat_string, floats, integers, objects, dates, cont_integers,
    clean_float_string, dirty_float_string, float_frequency, useless]

/-- C6.  `transform` on a freshly constructed preprocessor always fails with
the not-fitted error; `transform` on the result of a successful `fit` never
fails with it. -/
theorem claim_C6_transform_requires_fit :
    (∀ (v : Int) (df : DataFrame),
      (SimplePreprocessor.init v).transform df =
        Except.error TransformError.notFitted) ∧
    (∀ (p : SimplePreprocessor) (df : DataFrame) (p' : SimplePreprocessor)
       (df' : DataFrame), p.fit df = Except.ok p' →
      p'.transform df' ≠ Except.error TransformError.notFitted) := by
  constructor
  · intro v df
    rfl
  · intro p df p' df' h
    simp only [SimplePreprocessor.fit] at h
    split at h
    · exact absurd h (by simp)
    · injection h with h
      subst h
      simp [SimplePreprocessor.transform]

/-- C6 witness: the fresh instance fails with not-fitted on `dfFloat`; the
instance fitted on `dfFloat` does not. -/
theorem claim_C6_witness :
    (SimplePreprocessor.init 0).transform dfFloat =
      Except.error TransformError.notFitted ∧
    fittedFloat.transform dfFloat ≠ Except.error TransformError.notFitted :=
  ⟨claim_C6_transform_requires_fit.1 0 dfFloat,
   claim_C6_transform_requires_fit.2 (SimplePreprocessor.init 0) dfFloat
     fittedFloat dfFloat fit_dfFloat⟩

/-- C7.  The continuous sub-pipeline is cast-to-float followed by
standardization, with a median-imputation step prepended exactly when some
column flagged continuous contains a missing value. -/
theorem claim_C7_continuous_pipeline (df : DataFrame) :
    (steps_continuous df = [Step.medianImpute, Step.castFloat, Step.standardScaler] ∨
     steps_continuous df = [Step.castFloat, Step.standardScaler]) ∧
    (steps_continuous df = [Step.medianImpute, Step.castFloat, Step.standardScaler] ↔
      ∃ nc ∈ df.cols, (detectColumn df.nrows nc.2).continuous = true ∧
        none ∈ nc.2.values) := by
  have hkey : hasMissingContinuous df = true ↔
      ∃ nc ∈ df.cols, (detectColumn df.nrows nc.2).continuous = true ∧
        none ∈ nc.2.values := by
    simp [hasMissingContinuous, List.any_eq_true, Option.isNone_iff_eq_none]
  cases hm : hasMissingContinuous df with
  | true =>
    have hsteps : steps_continuous df =
        [Step.medianImpute, Step.castFloat, Step.standardScaler] := by
      simp [steps_continuous, hm, List.insertIdx]
    refine ⟨Or.inl hsteps, ?_⟩
    rw [hsteps]
    simp [hkey.mp hm]
  | false =>
    have hsteps : steps_continuous df = [Step.castFloat, Step.standardScaler] := by
      simp [steps_continuous, hm]
    refine ⟨Or.inr hsteps, ?_⟩
    rw [hsteps]
    constructor
    · intro h
      exact absurd h (by simp)
    · intro h
      have := hkey.mpr h
      rw [hm] at this
      exact absurd this (by decide)

/-- C7 witness: on a dataframe whose float column has a null, the pipeline
starts with the imputer (first disjunct of the claim's shape statement). -/
theorem claim_C7_witness :
    steps_continuous ⟨2, [("a", ⟨Kind.kfloat, [some "1.0", none]⟩)]⟩ =
        [Step.medianImpute, Step.castFloat, Step.standardScaler] ∨
    steps_continuous ⟨2, [("a", ⟨Kind.kfloat, [some "1.0", none]⟩)]⟩ =
        [Step.castFloat, Step.standardScaler] :=
  (claim_C7_continuous_pipeline ⟨2, [("a", ⟨Kind.kfloat, [some "1.0", none]⟩)]⟩).1

/-- C4 counterexample.  The claim says the fitted transform is dense exactly
when the output density exceeds 90%.  On the transformer fitted for `dfFloat`
(whose `sparse_threshold` is the `0.1` set on line 146), a mixed output of
density one half is emitted dense although one half does not exceed 9/10. -/
theorem claim_C4_counterexample :
    (SimplePreprocessor.init 0).fit dfFloat = Except.ok fittedFloat ∧
    fittedFloat.ct_ = some ctFloat ∧
    output_is_sparse true (1 / 2) ctFloat.sparse_threshold = false ∧
    ¬((1 : ℚ) / 2 > 9 / 10) := by
  refine ⟨fit_dfFloat, rfl, ?_, by norm_num⟩
  simp only [output_is_sparse, ctFloat, Bool.true_and]
  rw [decide_eq_false_iff_not]
  norm_num

/-- C4 amended.  Every transformer produced by a successful `fit` carries the
sparse threshold `1/10`, and against that threshold the stacked output is
sparse exactly when some block is sparse and the density is strictly below
`1/10` — dense, in particular, whenever density is at least 10%. -/
theorem claim_C4_density_threshold (p : SimplePreprocessor) (df : DataFrame)
    (p' : SimplePreprocessor) (ct : ColumnTransformer) (b : Bool) (d : ℚ)
    (hfit : p.fit df = Except.ok p') (hct : p'.ct_ = some ct) :
    ct.sparse_threshold = 1 / 10 ∧
    (output_is_sparse b d ct.sparse_threshold = true ↔ (b = true ∧ d < 1 / 10)) := by
  have hth : ct.sparse_threshold = 1 / 10 := by
    simp only [SimplePreprocessor.fit] at hfit
    split at hfit
    · exact absurd hfit (by simp)
    · injection hfit with hfit
      subst hfit
      simp only [] at hct
      injection hct with hct
      subst hct
      rfl
  refine ⟨hth, ?_⟩
  rw [hth]
  simp [output_is_sparse]

/-- C4 witness: the transformer fitted on `dfFloat` has threshold `1/10` and
classifies a mixed half-dense output at that threshold. -/
theorem claim_C4_witness :
    ctFloat.sparse_threshold = 1 / 10 ∧
    (output_is_sparse true (1 / 2) ctFloat.sparse_threshold = true ↔
      (true = true ∧ (1 : ℚ) / 2 < 1 / 10)) :=
  claim_C4_density_threshold (SimplePreprocessor.init 0) dfFloat fittedFloat
    ctFloat true (1 / 2) fit_dfFloat rfl

end Dabl
